import Mathlib

/-!
Shallow embedding of the NT4 client session core (`src/v4/client.rs` and
`src/v4/topic.rs`): the topic and subscription registries, the id counters,
the publish and unpublish paths, the on-open rehydration frame, value routing
to subscribers, and the clock-synchronization arithmetic.  Machine integers
are modelled as `Nat` (unsigned 32-bit, with explicit `% 4294967296` where
wrapping matters) or `Int` (signed); fallible steps return `Option`.
-/

namespace NT4

/-- Modelled from the spec: the NT4 value type tag set (`Type` in the source,
whose defining module is not under `src/`); the variant list follows the
spec's wire-protocol section. -/
inductive NTType where
  | boolean
  | double
  | int
  | float
  | str
  | json
  | raw
  | rpc
  | msgpack
  | booleanArray
  | doubleArray
  | intArray
  | floatArray
  | strArray
deriving DecidableEq

/-- Publisher properties (`PublishProperties` in `src/v4/topic.rs`); the
arbitrary JSON bag `rest` is modelled as string pairs. -/
structure PublishProperties where
  persistent : Option Bool
  retained : Option Bool
  rest : Option (List (String × String))
deriving DecidableEq

/-- A server-announced topic (`Topic` in `src/v4/topic.rs`). -/
structure Topic where
  name : String
  id : Int
  pubuid : Option Int
  type : NTType
  properties : Option PublishProperties
deriving DecidableEq

/-- A client-published topic (`PublishedTopic` in `src/v4/topic.rs`); its
pubuid is allocated from the unsigned 32-bit `topic_counter`. -/
structure PublishedTopic where
  name : String
  pubuid : Nat
  type : NTType
  properties : Option PublishProperties
deriving DecidableEq

/-- Modelled from the spec: subscription options (periodic rate, all-updates
flag, topics-only flag, prefix-match flag); the defining module is not under
`src/`.  Only the prefix-match flag affects routing. -/
structure SubscriptionOptions where
  periodic : Option Nat
  all : Option Bool
  topicsonly : Option Bool
  prefixFlag : Option Bool
deriving DecidableEq

/-- Modelled from the spec: the user-visible subscription data (subuid, topic
set, options); the defining module is not under `src/`.  The topic set is
modelled as a list. -/
structure SubscriptionData where
  subuid : Int
  topics : List String
  options : Option SubscriptionOptions
deriving DecidableEq

/-- State of a subscription's bounded consumer queue: whether the receiver
was closed, and how many of the 100 slots remain free. -/
structure QueueState where
  closed : Bool
  free : Nat
deriving DecidableEq

/-- Modelled from the spec: a Subscription Registry entry (`InternalSub`),
holding a weak handle to the `SubscriptionData` and the queue sender.  The
weak handle is modelled as `Option`: `some` means `upgrade()` succeeds (user
still holds the strong handle), `none` means the consumer was dropped. -/
structure InternalSub where
  data : Option SubscriptionData
  queue : QueueState
deriving DecidableEq

/-- Modelled from the spec: `InternalSub::is_valid` distinguishes a live
entry from one to prune; per the spec's routing steps an entry is dead when
the weak handle cannot upgrade or the consumer queue has been closed. -/
def InternalSub.is_valid (s : InternalSub) : Bool :=
  s.data.isSome && !s.queue.closed

/-- Modelled from the spec: whether an options bag enables prefix matching. -/
def prefixEnabled (options : Option SubscriptionOptions) : Bool :=
  match options with
  | some o => o.prefixFlag.getD false
  | none => false

/-- Modelled from the spec: topic-set matching, exact by default and
prefix-match when the option is set. -/
def SubscriptionData.matches_topic (d : SubscriptionData) (t : Topic) : Bool :=
  if prefixEnabled d.options then d.topics.any (fun p => t.name.startsWith p)
  else d.topics.any (fun p => p == t.name)

/-- Modelled from the spec: `InternalSub::matches_topic` consults the
subscription data behind the weak handle. -/
def InternalSub.matches_topic (s : InternalSub) (t : Topic) : Bool :=
  match s.data with
  | some d => d.matches_topic t
  | none => false

/-- A decoded MsgPack payload (`rmpv::Value`), restricted to what the claims
need: integers and a non-integer marker. -/
inductive RmpValue where
  | integer (i : Int)
  | nonInteger (tag : Nat)
deriving DecidableEq

/-- Modelled from `rmpv`: `Value::as_i64` returns the integer when the value
is an integer representable in a signed 64-bit word, otherwise `None`. -/
def RmpValue.as_i64 : RmpValue → Option Int
  | .integer i =>
      if -9223372036854775808 ≤ i ∧ i < 9223372036854775808 then some i else none
  | .nonInteger _ => none

/-- The value record delivered to consumers (`MessageData`). -/
structure MessageData where
  topic_name : String
  timestamp : Nat
  type : NTType
  data : RmpValue
deriving DecidableEq

/-- Modelled from the spec: the NT4 JSON control messages used by the client
(`NTMessage` in the source, whose defining module is not under `src/`); the
fields mirror the constructor sites in `src/v4/client.rs`. -/
inductive NTMessage where
  | publish (name : String) (pubuid : Nat) (ty : NTType) (properties : Option PublishProperties)
  | unpublish (pubuid : Nat)
  | setProperties (name : String) (update : PublishProperties)
  | subscribe (subuid : Int) (topics : List String) (options : Option SubscriptionOptions)
  | unsubscribe (subuid : Int)
  | announce (name : String) (id : Int) (ty : NTType) (pubuid : Option Int) (properties : PublishProperties)
  | unannounce (name : String) (id : Int)
  | properties (name : String)
deriving DecidableEq

/-- An outbound frame; the claims only concern text frames, each carrying one
JSON array of control messages. -/
inductive Frame where
  | text (messages : List NTMessage)
deriving DecidableEq

/-- Association-list lookup, modelling `HashMap::get`. -/
def alookup {α β : Type} [DecidableEq α] : List (α × β) → α → Option β
  | [], _ => none
  | (k, v) :: rest, k' => if k = k' then some v else alookup rest k'

/-- Association-list insert-or-replace, modelling `HashMap::insert`. -/
def ainsert {α β : Type} [DecidableEq α] : List (α × β) → α → β → List (α × β)
  | [], k, v => [(k, v)]
  | (k', v') :: rest, k, v =>
      if k' = k then (k, v) :: rest else (k', v') :: ainsert rest k v

/-- Association-list removal, modelling `HashMap::remove`. -/
def aerase {α β : Type} [DecidableEq α] : List (α × β) → α → List (α × β)
  | [], _ => []
  | (k', v') :: rest, k => if k' = k then rest else (k', v') :: aerase rest k

/-- Checked unsigned subtraction (`u32::checked_sub`). -/
def checked_sub (a b : Nat) : Option Nat :=
  if b ≤ a then some (a - b) else none

/-- Checked unsigned 32-bit addition (`u32::checked_add`). -/
def checked_add_u32 (a b : Nat) : Option Nat :=
  if a + b < 4294967296 then some (a + b) else none

/-- Checked signed 32-bit addition (`i32::checked_add`). -/
def checked_add_i32 (a b : Int) : Option Int :=
  if -2147483648 ≤ a + b ∧ a + b < 2147483648 then some (a + b) else none

/-- `InnerClient::new_topic_id`: increments the unsigned 32-bit pubuid
counter, wrapping to 1 on overflow; returns the new id and the counter's new
value (the source stores the returned id back into the counter). -/
def new_topic_id (counter : Nat) : Nat × Nat :=
  let new_id := (checked_add_u32 counter 1).getD 1
  (new_id, new_id)

/-- `InnerClient::new_sub_id`: increments the signed 32-bit subuid counter,
wrapping to 1 on overflow; returns the new id and the counter's new value. -/
def new_sub_id (counter : Int) : Int × Int :=
  let new_id := (checked_add_i32 counter 1).getD 1
  (new_id, new_id)

/-- The JSON array built by `Client::publish_topic` (lines 168-184): the
publish message, followed by a setproperties message when properties were
supplied. -/
def publish_topic_messages (name : String) (pubuid : Nat) (ty : NTType)
    (properties : Option PublishProperties) : List NTMessage :=
  let publish_message := NTMessage.publish name pubuid ty properties
  match properties with
  | some props => [publish_message, NTMessage.setProperties name props]
  | none => [publish_message]

/-- Outcome of serializing and sending the publish frame: success, a JSON
serialization error, or a non-closure transport error surfaced by
`send_message`. -/
inductive SendOutcome where
  | success
  | encodeError
  | transportError
deriving DecidableEq

/-- The state touched by the publish path: the pubuid counter and the
client-published map. -/
structure PubState where
  topic_counter : Nat
  client_published_topics : List (Nat × PublishedTopic)
deriving DecidableEq

/-- `Client::publish_topic`: allocates a pubuid (always, advancing the
counter), builds the message array, serializes and sends it, and only on
success inserts the `PublishedTopic` into the client-published map and
returns it.  Returns the new state, the frames actually sent, and the topic
on success. -/
def publish_topic (st : PubState) (name : String) (ty : NTType)
    (properties : Option PublishProperties) (outcome : SendOutcome) :
    PubState × List Frame × Option PublishedTopic :=
  let pubuid := (new_topic_id st.topic_counter).1
  let st1 : PubState := { st with topic_counter := (new_topic_id st.topic_counter).2 }
  match outcome with
  | .encodeError => (st1, [], none)
  | .transportError => (st1, [], none)
  | .success =>
      let topic : PublishedTopic :=
        { name := name, pubuid := pubuid, type := ty, properties := properties }
      ({ st1 with
          client_published_topics := ainsert st1.client_published_topics pubuid topic },
        [Frame.text (publish_topic_messages name pubuid ty properties)], some topic)

/-- `PublishedTopic::as_unpublish` from `src/v4/topic.rs`. -/
def as_unpublish (t : PublishedTopic) : NTMessage :=
  NTMessage.unpublish t.pubuid

/-- `Client::unpublish` (lines 207-214): serializes and sends the one-element
unpublish array; the client-published map is not touched by this function. -/
def unpublish (published : List (Nat × PublishedTopic)) (t : PublishedTopic) :
    List NTMessage × List (Nat × PublishedTopic) :=
  ([as_unpublish t], published)

/-- `InnerClient::client_time`: microseconds since `start_time`, truncated to
an unsigned 32-bit word (`as_micros() as u32`).  Instants are modelled as
absolute microsecond counts. -/
def client_time (now start_time : Nat) : Nat :=
  (now - start_time) % 4294967296

/-- The synchronous clock state: the `start_time` anchor (absolute
microseconds) and the stored `server_time_offset`. -/
structure ClockState where
  start_time : Nat
  server_time_offset : Nat
deriving DecidableEq

/-- `InnerClient::server_time`: `client_time() + offset` in unsigned 32-bit
arithmetic (release-mode wrapping addition). -/
def server_time (now : Nat) (st : ClockState) : Nat :=
  (client_time now st.start_time + st.server_time_offset) % 4294967296

/-- An `i64 as u32` cast: truncation to the low 32 bits (`%` on `Int` is
the euclidean remainder, so the result is always in range). -/
def i64_as_u32 (x : Int) : Nat :=
  (x % 4294967296).toNat

/-- `InnerClient::handle_new_timestamp`: given the server timestamp and the
echoed client timestamp of a clock-sync reply, plus the receive-side client
time and the stored offset, returns the offset after the call (`some`) or
`none` when a checked subtraction failed.  A `none` echo leaves the offset
unchanged and still counts as success, exactly as in the source. -/
def handle_new_timestamp (server_timestamp : Nat) (client_timestamp : Option Int)
    (receive_time : Nat) (offset : Nat) : Option Nat :=
  match client_timestamp with
  | none => some offset
  | some ct =>
      match checked_sub receive_time (i64_as_u32 ct) with
      | none => none
      | some round_trip_time =>
          match checked_sub server_timestamp (round_trip_time / 2) with
          | none => none
          | some server_time_at_receive =>
              match checked_sub server_time_at_receive receive_time with
              | none => none
              | some off => some off

/-- Result of processing one clock-sync reply: the clock state afterwards and
whether a fresh ping was emitted by `update_time`. -/
structure RttOutcome where
  state : ClockState
  pinged : Bool
deriving DecidableEq

/-- The `id == -1` branch of `handle_message` (lines 699-710): attempt the
offset computation; on failure re-anchor `start_time` to the current instant
(`now_first`), emit a fresh ping, and retry once with the same reply
(`now_retry` is the instant of the retry's `client_time()` call). -/
def handle_rtt_message (st : ClockState) (now_first now_retry : Nat)
    (server_timestamp : Nat) (echoed : Option Int) : RttOutcome :=
  match handle_new_timestamp server_timestamp echoed
      (client_time now_first st.start_time) st.server_time_offset with
  | some off => { state := { st with server_time_offset := off }, pinged := false }
  | none =>
      let st' : ClockState := { start_time := now_first, server_time_offset := st.server_time_offset }
      match handle_new_timestamp server_timestamp echoed
          (client_time now_retry st'.start_time) st'.server_time_offset with
      | some off => { state := { st' with server_time_offset := off }, pinged := true }
      | none => { state := st', pinged := true }

/-- `Vec` index assignment `v[i] = x`: `none` models the out-of-bounds panic
(`with_capacity` reserves memory but the length stays 0). -/
def setIdx {α : Type} : List α → Nat → α → Option (List α)
  | [], _, _ => none
  | _ :: xs, 0, v => some (v :: xs)
  | x :: xs, n + 1, v => (setIdx xs n v).map (fun l => x :: l)

/-- The `for_each` over `values().enumerate()` in `on_open`, assigning each
message by index starting from `i`. -/
def indexAssignFrom {α : Type} (acc : List α) (i : Nat) : List α → Option (List α)
  | [] => some acc
  | v :: rest =>
      match setIdx acc i v with
      | none => none
      | some acc' => indexAssignFrom acc' (i + 1) rest

/-- The publish message `on_open` builds for one client-published topic. -/
def publishMessage (t : PublishedTopic) : NTMessage :=
  NTMessage.publish t.name t.pubuid t.type t.properties

/-- The rehydration part of `InnerClient::on_open` (lines 456-494): build the
message vector by index-assignment into an empty vector (one publish per
client-published topic), then `retain` the subscriptions for which
`!sub.is_valid()`, then extend with one subscribe message per remaining
upgradeable subscription.  Returns `none` on the index-assignment panic,
otherwise the frame's message array and the registry after the retain. -/
def on_open_frame (published : List PublishedTopic)
    (subscriptions : List (Int × InternalSub)) :
    Option (List NTMessage × List (Int × InternalSub)) :=
  match indexAssignFrom [] 0 (published.map publishMessage) with
  | none => none
  | some base =>
      let subscriptions' := subscriptions.filter (fun e => !(e.2.is_valid))
      some (base ++ subscriptions'.filterMap
          (fun e => e.2.data.map (fun d => NTMessage.subscribe d.subuid d.topics d.options)),
        subscriptions')

/-- `send_value_to_subscriber` (lines 735-760): the `retain` pass over the
Subscription Registry for one inbound value.  An entry is kept exactly when
the source's closure returns true: it is valid, matches the topic, and the
non-blocking enqueue succeeds (queue not full).  Returns the registry after
the pass and the list of deliveries made. -/
def send_value_to_subscriber (subs : List (Int × InternalSub)) (topic : Topic)
    (timestamp_micros : Nat) (ty : NTType) (data : RmpValue) :
    List (Int × InternalSub) × List (Int × MessageData) :=
  match subs with
  | [] => ([], [])
  | (k, sub) :: rest =>
      let (rest', delivered) := send_value_to_subscriber rest topic timestamp_micros ty data
      if !sub.is_valid then (rest', delivered)
      else if sub.matches_topic topic then
        if sub.queue.free > 0 then
          ((k, { sub with queue := { sub.queue with free := sub.queue.free - 1 } }) :: rest',
            (k, { topic_name := topic.name, timestamp := timestamp_micros,
                  type := ty, data := data }) :: delivered)
        else (rest', delivered)
      else (rest', delivered)

/-- The synthetic time-topic entry inserted by `on_open` (lines 445-454). -/
def timeTopic : Topic :=
  { name := "Time", id := -1, pubuid := some (-1), type := NTType.int, properties := none }

/-- The operations that touch the Topic Registry (`announced_topics`):
connection open, and the inbound text-message handlers of `handle_message`
(announce, unannounce, properties). -/
inductive RegistryOp where
  | openConn
  | announce (name : String) (id : Int) (ty : NTType) (pubuid : Option Int) (properties : PublishProperties)
  | unannounce (name : String) (id : Int)
  | propertiesMsg (name : String)
deriving DecidableEq

/-- Effect of one operation on the Topic Registry: `openConn` inserts the
time topic (lines 445-454); `announce` updates only the pubuid when the id
exists (and only when the server echoed one), otherwise inserts a fresh
entry (lines 568-601); `unannounce` removes by id (lines 602-609);
`properties` is a no-op (lines 610-612). -/
def applyRegistryOp (reg : List (Int × Topic)) (op : RegistryOp) : List (Int × Topic) :=
  match op with
  | .openConn => ainsert reg (-1) timeTopic
  | .announce name id ty pubuid props =>
      match alookup reg id with
      | some existing =>
          if pubuid.isSome then ainsert reg id { existing with pubuid := pubuid } else reg
      | none =>
          ainsert reg id { name := name, id := id, pubuid := pubuid, type := ty, properties := some props }
  | .unannounce _ id => aerase reg id
  | .propertiesMsg _ => reg

/-- The Topic Registry invariant of the spec: the synthetic time-topic entry
(id = -1, type = int) is present. -/
def timeTopicInv (reg : List (Int × Topic)) : Prop :=
  ∃ t, alookup reg (-1) = some t ∧ t.id = -1 ∧ t.type = NTType.int

theorem alookup_ainsert_self {α β : Type} [DecidableEq α]
    (l : List (α × β)) (k : α) (v : β) : alookup (ainsert l k v) k = some v := by
  induction l with
  | nil => simp [ainsert, alookup]
  | cons hd tl ih =>
      obtain ⟨k', v'⟩ := hd
      by_cases h : k' = k
      · subst h; simp [ainsert, alookup]
      · simp [ainsert, alookup, h, ih]

theorem alookup_ainsert_ne {α β : Type} [DecidableEq α]
    (l : List (α × β)) (k k' : α) (v : β) (h : k ≠ k') :
    alookup (ainsert l k v) k' = alookup l k' := by
  induction l with
  | nil => simp [ainsert, alookup, h]
  | cons hd tl ih =>
      obtain ⟨k'', v''⟩ := hd
      by_cases h2 : k'' = k
      · subst h2; simp [ainsert, alookup, h]
      · simp only [ainsert, if_neg h2, alookup]
        by_cases h3 : k'' = k'
        · simp [h3]
        · simp [h3, ih]

theorem alookup_aerase_ne {α β : Type} [DecidableEq α]
    (l : List (α × β)) (k k' : α) (h : k ≠ k') :
    alookup (aerase l k) k' = alookup l k' := by
  induction l with
  | nil => simp [aerase]
  | cons hd tl ih =>
      obtain ⟨k'', v''⟩ := hd
      by_cases h2 : k'' = k
      · subst h2; simp [aerase, alookup, h]
      · simp only [aerase, if_neg h2, alookup]
        by_cases h3 : k'' = k'
        · simp [h3]
        · simp [h3, ih]

theorem checked_sub_of_le {a b : Nat} (h : b ≤ a) : checked_sub a b = some (a - b) := by
  simp [checked_sub, h]

theorem checked_sub_of_gt {a b : Nat} (h : a < b) : checked_sub a b = none := by
  simp [checked_sub, Nat.not_le.mpr h]

/-- A sample client-published topic used in concrete counterexamples. -/
def sampleTopicA : PublishedTopic :=
  { name := "/a", pubuid := 1, type := NTType.int, properties := none }

/-- C3 counterexample: the claim says the pubuid is absent from the
client-published map after `unpublish` returns, but for a concrete map
holding one published topic the entry is still present afterwards
(`Client::unpublish` never touches `client_published_topics`). -/
theorem unpublish_keeps_pubuid_present :
    alookup (unpublish [(1, sampleTopicA)] sampleTopicA).2 1 = some sampleTopicA := by
  rfl

/-- C3 (amended): `unpublish` sends the single-element JSON array with the
unpublish message for the topic's pubuid, and leaves the client-published
map exactly as it was; the pubuid remains present if it was present. -/
theorem unpublish_message_and_map_unchanged
    (published : List (Nat × PublishedTopic)) (t : PublishedTopic) :
    (unpublish published t).1 = [NTMessage.unpublish t.pubuid]
    ∧ (unpublish published t).2 = published :=
  ⟨rfl, rfl⟩

/-- C7: `publish_topic` with properties supplied sends exactly one text frame
whose JSON array has exactly two messages, the publish (carrying the
allocated pubuid) followed by the setproperties bound to the same name, in
that order; with properties absent the frame carries exactly the one publish
message. -/
theorem publish_topic_single_frame_batching (st : PubState) (name : String)
    (ty : NTType) (props : PublishProperties) :
    (publish_topic st name ty (some props) SendOutcome.success).2.1
      = [Frame.text [NTMessage.publish name (new_topic_id st.topic_counter).1 ty (some props),
          NTMessage.setProperties name props]]
    ∧ (publish_topic st name ty none SendOutcome.success).2.1
      = [Frame.text [NTMessage.publish name (new_topic_id st.topic_counter).1 ty none]] :=
  ⟨rfl, rfl⟩

/-- C8 counterexample: the claim quantifies over every value of the signed
32-bit subuid counter and asserts the returned id is never 0, but at counter
value -1 the checked addition succeeds and `new_sub_id` returns 0. -/
theorem new_sub_id_zero_at_neg_one : (new_sub_id (-1)).1 = 0 := by
  decide

/-- C8 (amended): for every in-range value of the unsigned 32-bit pubuid
counter, and every non-negative in-range value of the signed 32-bit subuid
counter (the only values the session can reach, as the counters start at 0),
`new_topic_id` and `new_sub_id` return the previous counter plus one, except
that on overflow of the addition they return 1; the returned id is never 0
and the counter is updated to the returned value. -/
theorem id_counters_increment_and_wrap (c : Nat) (s : Int)
    (hc : c < 4294967296) (hs0 : 0 ≤ s) (hs1 : s < 2147483648) :
    (new_topic_id c).1 = (if c = 4294967295 then 1 else c + 1)
    ∧ (new_topic_id c).1 ≠ 0
    ∧ (new_topic_id c).2 = (new_topic_id c).1
    ∧ (new_sub_id s).1 = (if s = 2147483647 then 1 else s + 1)
    ∧ (new_sub_id s).1 ≠ 0
    ∧ (new_sub_id s).2 = (new_sub_id s).1 := by
  unfold new_topic_id new_sub_id checked_add_u32 checked_add_i32
  refine ⟨?_, ?_, rfl, ?_, ?_, rfl⟩ <;> split_ifs <;> simp_all <;> omega

/-- C8 witness at concrete counter values. -/
theorem id_counters_increment_and_wrap_witness :
    (new_topic_id 5).1 = (if 5 = 4294967295 then 1 else 5 + 1)
    ∧ (new_topic_id 5).1 ≠ 0
    ∧ (new_topic_id 5).2 = (new_topic_id 5).1
    ∧ (new_sub_id 7).1 = (if (7 : Int) = 2147483647 then 1 else 7 + 1)
    ∧ (new_sub_id 7).1 ≠ 0
    ∧ (new_sub_id 7).2 = (new_sub_id 7).1 :=
  id_counters_increment_and_wrap 5 7 (by decide) (by decide) (by decide)

/-- C9: when `publish_topic` fails — a JSON serialization error or a
non-closure transport error from the send — no topic is returned and the
client-published map is unchanged (the insert happens only after the send
succeeds), but the pubuid counter has already been advanced, so the failed
call still consumed an id. -/
theorem publish_topic_failure_leaves_map_consumes_id (st : PubState)
    (name : String) (ty : NTType) (props : Option PublishProperties)
    (outcome : SendOutcome) (h : outcome ≠ SendOutcome.success) :
    (publish_topic st name ty props outcome).1.client_published_topics
      = st.client_published_topics
    ∧ (publish_topic st name ty props outcome).2.2 = none
    ∧ (publish_topic st name ty props outcome).1.topic_counter
      = (new_topic_id st.topic_counter).1 := by
  cases outcome with
  | success => exact absurd rfl h
  | encodeError => exact ⟨rfl, rfl, rfl⟩
  | transportError => exact ⟨rfl, rfl, rfl⟩

/-- C6 counterexample: with the anchor 4294967295 microseconds in the past
and a stored offset of 1, the wrapping 32-bit addition makes `server_time`
return 0, which is strictly less than `client_time`. -/
theorem server_time_lt_client_time_on_wrap :
    server_time 4294967295 ⟨0, 1⟩ = 0
    ∧ ¬ client_time 4294967295 0 ≤ server_time 4294967295 ⟨0, 1⟩ := by
  decide

/-- C6 (amended): `server_time()` is `client_time()` plus the stored offset
reduced modulo 2 to the 32, so it is at least `client_time()` exactly when
that addition does not overflow 32 bits. -/
theorem server_time_ge_client_time_without_overflow (now start off : Nat)
    (h : client_time now start + off < 4294967296) :
    server_time now ⟨start, off⟩ = client_time now start + off
    ∧ client_time now start ≤ server_time now ⟨start, off⟩ := by
  have h1 : server_time now ⟨start, off⟩ = client_time now start + off := by
    unfold server_time
    exact Nat.mod_eq_of_lt h
  exact ⟨h1, by omega⟩

/-- C6 witness at a concrete non-overflowing clock state. -/
theorem server_time_ge_client_time_without_overflow_witness :
    server_time 10 ⟨0, 5⟩ = client_time 10 0 + 5
    ∧ client_time 10 0 ≤ server_time 10 ⟨0, 5⟩ :=
  server_time_ge_client_time_without_overflow 10 0 5 (by decide)

/-- C10: when the fourth element of a clock-sync reply is not representable
as an integer, `as_i64` yields `None`, `handle_new_timestamp` returns
success with the offset unchanged, and the `id == -1` branch neither
re-anchors `start_time` nor emits a retry ping. -/
theorem non_integer_echo_no_reanchor (st : ClockState)
    (now_first now_retry server_ts : Nat) (v : RmpValue) (h : v.as_i64 = none) :
    handle_rtt_message st now_first now_retry server_ts v.as_i64 = ⟨st, false⟩
    ∧ handle_new_timestamp server_ts v.as_i64 (client_time now_first st.start_time)
        st.server_time_offset = some st.server_time_offset := by
  rw [h]
  exact ⟨rfl, rfl⟩

/-- C10 witness at a concrete non-integer payload. -/
theorem non_integer_echo_no_reanchor_witness :
    handle_rtt_message ⟨3, 7⟩ 100 200 5000 (RmpValue.nonInteger 0).as_i64 = ⟨⟨3, 7⟩, false⟩
    ∧ handle_new_timestamp 5000 (RmpValue.nonInteger 0).as_i64 (client_time 100 3) 7 = some 7 :=
  non_integer_echo_no_reanchor ⟨3, 7⟩ 100 200 5000 (RmpValue.nonInteger 0) rfl

theorem handle_rtt_message_of_fail (st : ClockState) (now_first now_retry server_ts : Nat)
    (echoed : Option Int)
    (hfail : handle_new_timestamp server_ts echoed (client_time now_first st.start_time)
        st.server_time_offset = none) :
    (handle_rtt_message st now_first now_retry server_ts echoed).state.start_time = now_first
    ∧ (handle_rtt_message st now_first now_retry server_ts echoed).pinged = true := by
  unfold handle_rtt_message
  rw [hfail]
  rcases h2 : handle_new_timestamp server_ts echoed (client_time now_retry now_first)
      st.server_time_offset with _ | off <;> simp [h2]

/-- C5 counterexample: with `start_time` 4294967396 microseconds in the past
(older than 2 to the 32), the echoed client timestamp 4000000000 makes the
first offset computation fail; the client re-anchors and retries, but the
retry reuses the same stale echo against the now-tiny receive time, so the
retry also fails and no valid offset is produced by it. -/
theorem reanchor_retry_fails_on_stale_echo :
    handle_rtt_message ⟨0, 0⟩ 4294967396 4294967406 5000 (some 4000000000)
      = ⟨⟨4294967396, 0⟩, true⟩
    ∧ handle_new_timestamp 5000 (some 4000000000) (client_time 4294967406 4294967396) 0 = none := by
  decide

/-- C5 (amended): when a checked step of the offset computation fails, the
client re-anchors `start_time` to the failure instant and emits a fresh
ping, retrying the computation once with the new anchor — but the retry
reuses the stale echoed timestamp, so it is not guaranteed to succeed; a
valid non-negative offset is instead produced by the reply to the fresh
ping, whose echoed timestamp is measured from the new anchor, provided the
server timestamp is at least the receive time plus half the round trip. -/
theorem reanchor_ping_and_next_reply_offset
    (start off now_first now_retry server_ts ping_t recv_t sts : Nat) (echoed : Int)
    (hfail : handle_new_timestamp server_ts (some echoed) (client_time now_first start) off = none)
    (h1 : now_first ≤ ping_t) (h2 : ping_t ≤ recv_t)
    (h3 : recv_t - now_first < 4294967296)
    (h4 : client_time recv_t now_first
        + (client_time recv_t now_first - client_time ping_t now_first) / 2 ≤ sts) :
    (handle_rtt_message ⟨start, off⟩ now_first now_retry server_ts (some echoed)).state.start_time
        = now_first
    ∧ (handle_rtt_message ⟨start, off⟩ now_first now_retry server_ts (some echoed)).pinged = true
    ∧ handle_rtt_message ⟨now_first, off⟩ recv_t recv_t sts
        (some ((client_time ping_t now_first : Nat) : Int))
      = ⟨⟨now_first, sts - (client_time recv_t now_first - client_time ping_t now_first) / 2
          - client_time recv_t now_first⟩, false⟩ := by
  have hbase := handle_rtt_message_of_fail ⟨start, off⟩ now_first now_retry server_ts
    (some echoed) hfail
  refine ⟨hbase.1, hbase.2, ?_⟩
  have hre : client_time recv_t now_first = recv_t - now_first := Nat.mod_eq_of_lt h3
  have hpe : client_time ping_t now_first = ping_t - now_first := Nat.mod_eq_of_lt (by omega)
  have he32 : client_time ping_t now_first < 4294967296 := by unfold client_time; omega
  have hi : i64_as_u32 ((client_time ping_t now_first : Nat) : Int)
      = client_time ping_t now_first := by
    unfold i64_as_u32; omega
  have hsub1 : checked_sub (client_time recv_t now_first) (client_time ping_t now_first)
      = some (client_time recv_t now_first - client_time ping_t now_first) :=
    checked_sub_of_le (by omega)
  have hsub2 : checked_sub sts
        ((client_time recv_t now_first - client_time ping_t now_first) / 2)
      = some (sts - (client_time recv_t now_first - client_time ping_t now_first) / 2) :=
    checked_sub_of_le (by omega)
  have hsub3 : checked_sub
        (sts - (client_time recv_t now_first - client_time ping_t now_first) / 2)
        (client_time recv_t now_first)
      = some (sts - (client_time recv_t now_first - client_time ping_t now_first) / 2
          - client_time recv_t now_first) :=
    checked_sub_of_le (by omega)
  simp only [handle_rtt_message, handle_new_timestamp, hi, hsub1, hsub2, hsub3]

/-- C5 witness: the concrete stale-anchor scenario, applying the amended
theorem at explicit instants. -/
theorem reanchor_ping_and_next_reply_offset_witness :
    (handle_rtt_message ⟨0, 0⟩ 4294967396 4294967406 5000 (some 4000000000)).state.start_time
        = 4294967396
    ∧ (handle_rtt_message ⟨0, 0⟩ 4294967396 4294967406 5000 (some 4000000000)).pinged = true
    ∧ handle_rtt_message ⟨4294967396, 0⟩ 4294967405 4294967405 1000
        (some ((client_time 4294967401 4294967396 : Nat) : Int))
      = ⟨⟨4294967396, 1000
          - (client_time 4294967405 4294967396 - client_time 4294967401 4294967396) / 2
          - client_time 4294967405 4294967396⟩, false⟩ :=
  reanchor_ping_and_next_reply_offset 0 0 4294967396 4294967406 5000 4294967401 4294967405
    1000 4000000000 (by decide) (by decide) (by decide) (by decide) (by decide)

/-- C9 witness at a concrete failing call. -/
theorem publish_topic_failure_leaves_map_consumes_id_witness :
    (publish_topic { topic_counter := 0, client_published_topics := [] } "/a"
        NTType.double none SendOutcome.transportError).1.client_published_topics = []
    ∧ (publish_topic { topic_counter := 0, client_published_topics := [] } "/a"
        NTType.double none SendOutcome.transportError).2.2 = none
    ∧ (publish_topic { topic_counter := 0, client_published_topics := [] } "/a"
        NTType.double none SendOutcome.transportError).1.topic_counter
      = (new_topic_id 0).1 :=
  publish_topic_failure_leaves_map_consumes_id
    { topic_counter := 0, client_published_topics := [] } "/a" NTType.double none
    SendOutcome.transportError (by decide)

/-- A live subscription entry on topic "/b": the weak handle upgrades and the
queue is open with all 100 slots free. -/
def liveSubB : InternalSub := ⟨some ⟨1, ["/b"], none⟩, ⟨false, 100⟩⟩

/-- C1 (code bug): `on_open` index-assigns publish messages into an empty
vector, so it panics (`none`) as soon as one topic is published; and its
`retain` keeps exactly the subscriptions that are NOT valid, so a live
subscription is pruned and the rehydration frame contains no subscribe
message for it — the frame is the empty array instead of one publish per
published topic and one subscribe per live subscription. -/
theorem on_open_frame_panics_and_drops_live_subs :
    on_open_frame [sampleTopicA] [] = none
    ∧ on_open_frame [] [(1, liveSubB)] = some ([], [])
    ∧ liveSubB.is_valid = true := by
  decide

/-- The topic "/a" as announced by the server under id 3. -/
def topicServerA : Topic := ⟨"/a", 3, none, NTType.double, none⟩

/-- The topic "/b" as announced by the server under id 4. -/
def topicServerB : Topic := ⟨"/b", 4, none, NTType.double, none⟩

/-- A live subscription entry on topic "/a" with a free open queue. -/
def subOnA : InternalSub := ⟨some ⟨1, ["/a"], none⟩, ⟨false, 100⟩⟩

/-- C2 (code bug): in the routing pass of `send_value_to_subscriber` the
retain closure returns false for a live subscription whose topic set does
not match the inbound value's topic, so the non-matching entry is removed
from the registry (with nothing delivered) instead of remaining unchanged;
a matching live subscription with queue space does receive exactly one
MessageData and is retained. -/
theorem routing_pass_removes_non_matching_subscription :
    send_value_to_subscriber [(1, subOnA)] topicServerB 1000 NTType.double (RmpValue.integer 5)
      = ([], [])
    ∧ subOnA.is_valid = true
    ∧ subOnA.matches_topic topicServerB = false
    ∧ send_value_to_subscriber [(1, subOnA)] topicServerA 1000 NTType.double (RmpValue.integer 5)
      = ([(1, ⟨some ⟨1, ["/a"], none⟩, ⟨false, 99⟩⟩)],
          [(1, ⟨"/a", 1000, NTType.double, RmpValue.integer 5⟩)]) := by
  decide

/-- C4 counterexample: processing an inbound unannounce message with id = -1
removes the synthetic time-topic entry from the Topic Registry. -/
theorem unannounce_removes_time_topic :
    alookup (applyRegistryOp (applyRegistryOp [] RegistryOp.openConn)
      (RegistryOp.unannounce "Time" (-1))) (-1) = none := by
  decide

/-- C4 (amended): every `on_open` (re-)establishes the synthetic time-topic
entry (id = -1, type = int) in the Topic Registry, and the entry is
preserved by every registry operation except an inbound unannounce with
id = -1, which removes it: announces touch at most the pubuid of the
existing entry, unannounces with other ids and properties messages leave it
alone. -/
theorem time_topic_preserved_otherwise (reg : List (Int × Topic)) (op : RegistryOp)
    (hinv : timeTopicInv reg)
    (hop : ∀ s, op ≠ RegistryOp.unannounce s (-1)) :
    timeTopicInv (applyRegistryOp reg op)
    ∧ timeTopicInv (applyRegistryOp reg RegistryOp.openConn) := by
  constructor
  · obtain ⟨t, ht, hid, hty⟩ := hinv
    cases op with
    | openConn => exact ⟨timeTopic, alookup_ainsert_self reg (-1) timeTopic, rfl, rfl⟩
    | announce name id ty pubuid props =>
        by_cases hid' : id = -1
        · subst hid'
          simp only [applyRegistryOp]
          rw [ht]
          by_cases hp : pubuid.isSome
          · simp only [hp, if_true]
            exact ⟨{ t with pubuid := pubuid }, alookup_ainsert_self _ _ _, hid, hty⟩
          · simp only [hp, if_false]
            exact ⟨t, ht, hid, hty⟩
        · simp only [applyRegistryOp]
          cases halk : alookup reg id with
          | some existing =>
              by_cases hp : pubuid.isSome
              · simp only [hp, if_true]
                refine ⟨t, ?_, hid, hty⟩
                rw [alookup_ainsert_ne reg id (-1) _ hid']
                exact ht
              · simp only [hp, if_false]
                exact ⟨t, ht, hid, hty⟩
          | none =>
              refine ⟨t, ?_, hid, hty⟩
              rw [alookup_ainsert_ne reg id (-1) _ hid']
              exact ht
    | unannounce s id =>
        have hne : id ≠ -1 := fun h => hop s (by rw [h])
        refine ⟨t, ?_, hid, hty⟩
        simp only [applyRegistryOp]
        rw [alookup_aerase_ne reg id (-1) hne]
        exact ht
    | propertiesMsg name => exact ⟨t, ht, hid, hty⟩
  · exact ⟨timeTopic, alookup_ainsert_self reg (-1) timeTopic, rfl, rfl⟩

/-- C4 witness: a registry holding the time topic, with a concrete announce
operation that is not an unannounce of id -1. -/
theorem time_topic_preserved_otherwise_witness :
    timeTopicInv (applyRegistryOp [((-1 : Int), timeTopic)]
      (RegistryOp.announce "/x" 3 NTType.double none ⟨none, none, none⟩))
    ∧ timeTopicInv (applyRegistryOp [((-1 : Int), timeTopic)] RegistryOp.openConn) :=
  time_topic_preserved_otherwise [((-1 : Int), timeTopic)]
    (RegistryOp.announce "/x" 3 NTType.double none ⟨none, none, none⟩)
    ⟨timeTopic, rfl, rfl, rfl⟩
    (fun _ h => RegistryOp.noConfusion h)

end NT4
